import Mathlib

/-!
Verification of the Alx-Polly polling backend.

This file gives a shallow embedding of the vote-submission protocol and its
surrounding route handlers, translated from the TypeScript sources:

* `src/alx-polling-app/src/app/api/polls/[id]/vote/route.ts` (path-keyed vote
  endpoint, POST and GET),
* `src/alx-polling-app/src/app/api/polls/route.ts` (poll creation),
* `src/src/app/api/vote/route.ts` (body-keyed vote endpoint),
* `src/src/lib/error-handler.ts`, `src/src/lib/audit-logger.ts`,
* `src/src/lib/api-client-examples.ts` (zod validation and sanitization),
* the SQL schema with the `unique_user_poll_vote` constraint and the
  `increment_vote_count` / `decrement_vote_count` triggers.

Database calls are modelled as pure state transitions over an explicit `DB`
snapshot.  Calls that the supabase client reports as fallible (the vote
insert, the post-insert results read, the audit write) take their failure
mode from an `Env` record, so that error-translation and best-effort
behaviour can be stated.  Route handlers additionally return the list of
external calls they performed (`Event` trace), which makes ordering claims
such as "401 before any network call" statable.

Text is handled as ASCII character lists; the JavaScript string functions
used by the sources (`replace` of a first occurrence, `trim`, `toLowerCase`,
the DOMPurify server-side fallback regex strip of `<[^>]*>`) are implemented
structurally so that every definition evaluates inside the kernel.
-/

namespace AlxPolly

/-! ### Text primitives (JS string operations used by the sources) -/

/-- Character-level lowercase for ASCII, as used by `toLowerCase` on the
option-uniqueness keys (all inputs in this development are ASCII). -/
def lowerChar (c : Char) : Char :=
  if 'A' ≤ c ∧ c ≤ 'Z' then Char.ofNat (c.toNat + 32) else c

/-- JS `String.prototype.trim`: drop whitespace from both ends. -/
def trimChars (l : List Char) : List Char :=
  ((l.dropWhile Char.isWhitespace).reverse.dropWhile Char.isWhitespace).reverse

/-- `trim` on strings, via `trimChars`. -/
def trimText (s : String) : String := ⟨trimChars s.data⟩

/-- `toLowerCase` on strings. -/
def lowerText (s : String) : String := ⟨s.data.map lowerChar⟩

/-- Length of a string in characters.  The sources measure ASCII text, where
JS UTF-16 length and character count coincide. -/
def textLen (s : String) : Nat := s.data.length

/-- JS `s.replace(pat, "")` for a plain-string pattern: remove the first
occurrence of `pat`, leave the string unchanged when `pat` does not occur.
Used by the routes to strip a `"Bearer "` prefix from the auth header. -/
def removeFirst : List Char → List Char → List Char
  | [], _ => []
  | c :: rest, pat =>
    if pat.isPrefixOf (c :: rest) then (c :: rest).drop pat.length
    else c :: removeFirst rest pat

/-- `removeFirst` on strings. -/
def removeFirstText (s pat : String) : String := ⟨removeFirst s.data pat.data⟩

/-- JS `String.prototype.startsWith`. -/
def startsWithText (s pre : String) : Bool := pre.data.isPrefixOf s.data

/-- Is `pat` an infix of `l`?  Used for the body-keyed endpoint's
`/(duplicate|unique)/i.test(message)` check. -/
def hasInfix : List Char → List Char → Bool
  | _, [] => true
  | [], _ :: _ => false
  | c :: rest, pat =>
    if pat.isPrefixOf (c :: rest) then true else hasInfix rest pat

/-- Case-insensitive substring test on strings. -/
def containsInsensitive (s pat : String) : Bool :=
  hasInfix (s.data.map lowerChar) (pat.data.map lowerChar)

/-- The server-side DOMPurify fallback of `api-client-examples.ts`:
`html.replace(/<[^>]*>/g, "")`.  The first component of the state is the
buffered raw characters (reversed) of a `<` run that has not yet seen its
closing `>`; if the input ends inside such a run, the regex has no match
there and the buffered characters are emitted verbatim. -/
def stripTagsAux : Option (List Char) → List Char → List Char
  | none, [] => []
  | some buf, [] => buf.reverse
  | none, c :: rest =>
    if c = '<' then stripTagsAux (some [c]) rest
    else c :: stripTagsAux none rest
  | some buf, c :: rest =>
    if c = '>' then stripTagsAux none rest
    else stripTagsAux (some (c :: buf)) rest

/-- Strip all `<...>` tag occurrences from a string. -/
def stripTags (s : String) : String := ⟨stripTagsAux none s.data⟩

/-- The sanitizing transform applied by every free-form text field of
`createPollSchema`: `String(domPurify.sanitize(val, ...)).trim()`. -/
def sanitizeText (s : String) : String := trimText (stripTags s)

/-! ### Data model (tables of the `alx-polling-app` schema) -/

/-- A row of the `polls` table. -/
structure Poll where
  id : Nat
  title : String
  description : Option String
  is_active : Bool
  owner_id : Nat
deriving Repr, DecidableEq

/-- A row of the `poll_options` table.  `votes` is the denormalized counter
(SQL `INTEGER`, hence `Int` here) maintained by the triggers. -/
structure PollOption where
  id : Nat
  poll_id : Nat
  text : String
  votes : Int
  order_index : Nat
deriving Repr, DecidableEq

/-- A row of the `votes` table. -/
structure VoteRow where
  id : Nat
  poll_id : Nat
  option_id : Nat
  user_id : Nat
  created_at : Nat
deriving Repr, DecidableEq

/-- A row of the `audit_logs` table (the fields the handlers write). -/
structure AuditEntry where
  user_id : Option Nat
  action : String
  target_id : Option Nat
  detail : String
deriving Repr, DecidableEq

/-- Snapshot of the database backing the path-keyed endpoints. -/
structure DB where
  polls : List Poll
  options : List PollOption
  votes : List VoteRow
  audit : List AuditEntry
deriving Repr, DecidableEq

/-- A storage error as surfaced by the supabase client (`code`, `message`). -/
structure DbError where
  code : String
  message : String
deriving Repr, DecidableEq

/-! ### Database primitives -/

/-- `.from('polls').select(...).eq('id', pollId).single()`. -/
def findPoll (db : DB) (pollId : Nat) : Option Poll :=
  db.polls.find? (fun p => p.id == pollId)

/-- `.from('poll_options').select(...).eq('id', optionId).eq('poll_id', pollId).single()`:
the option row matching both the option id and the parent poll id. -/
def findOption (db : DB) (optionId pollId : Nat) : Option PollOption :=
  db.options.find? (fun o => o.id == optionId && o.poll_id == pollId)

/-- Does a vote row for `(pollId, userId)` exist?  This is the key tuple of
the `unique_user_poll_vote` constraint. -/
def hasVote (db : DB) (pollId userId : Nat) : Bool :=
  db.votes.any (fun v => v.poll_id == pollId && v.user_id == userId)

/-- The `increment_vote_count` / `decrement_vote_count` trigger bodies:
`UPDATE poll_options SET votes = votes + delta WHERE id = optionId`. -/
def bumpVotes (delta : Int) (optionId : Nat) (opts : List PollOption) : List PollOption :=
  opts.map (fun o => if o.id == optionId then { o with votes := o.votes + delta } else o)

/-- Number of vote rows referencing option `oid`. -/
def voteCount (votes : List VoteRow) (oid : Nat) : Nat :=
  (votes.filter (fun v => v.option_id == oid)).length

/-- The atomic vote insert as executed by the database: a single
constraint-checked write.  The uniqueness constraint over `(poll_id, user_id)`
rejects a duplicate with Postgres error code 23505; on success the
`increment_vote_trigger` fires within the same transaction.  Referential
failures and other write faults come from outside this snapshot model and are
injected through `Env.insertOverride` at the route level. -/
def tryInsertVote (db : DB) (v : VoteRow) : Except DbError (VoteRow × DB) :=
  if hasVote db v.poll_id v.user_id then
    .error { code := "23505",
             message := "duplicate key value violates unique constraint unique_user_poll_vote" }
  else
    .ok (v, { db with votes := v :: db.votes,
                      options := bumpVotes 1 v.option_id db.options })

/-- Counter consistency: every option counter equals the number of vote rows
referencing it. -/
def countersConsistentB (db : DB) : Bool :=
  db.options.all (fun o => o.votes == (voteCount db.votes o.id : Int))

/-- The two vote-relation writes the storage layer performs, each firing its
counter trigger. -/
inductive StoreOp where
  | insert (v : VoteRow)
  | delete (voteId : Nat)
deriving Repr, DecidableEq

/-- Apply a storage operation.  A failed insert (duplicate) leaves the state
unchanged; a delete removes the row with the given primary key (at most one,
since `id` is the primary key) and fires `decrement_vote_trigger` for it. -/
def applyOp (db : DB) : StoreOp → DB
  | .insert v =>
    match tryInsertVote db v with
    | .ok (_, db1) => db1
    | .error _ => db
  | .delete vid =>
    match db.votes.find? (fun v => v.id == vid) with
    | none => db
    | some v =>
      { db with votes := db.votes.eraseP (fun w => w.id == vid),
                options := bumpVotes (-1) v.option_id db.options }

/-- Apply a sequence of storage operations. -/
def applyOps (db : DB) (ops : List StoreOp) : DB := ops.foldl applyOp db

/-! ### Validation and sanitization (`createPollSchema` of `api-client-examples.ts`) -/

/-- The poll payload as it arrives after JSON parsing. -/
structure RawPoll where
  title : String
  description : Option String
  options : List String
deriving Repr, DecidableEq

/-- The payload after validation and sanitization. -/
structure SanitizedPoll where
  title : String
  description : String
  options : List String
deriving Repr, DecidableEq

/-- Title field checks, run on the raw string before the transform:
`.min(3).max(200)` plus the refine `value.trim().length >= 3`. -/
def titleValid (t : String) : Bool :=
  decide (3 ≤ textLen t) && decide (textLen t ≤ 200) && decide (3 ≤ textLen (trimText t))

/-- Description checks: `.max(500).optional().or(z.literal(''))`. -/
def descriptionValid : Option String → Bool
  | none => true
  | some d => decide (textLen d ≤ 500)

/-- Per-option raw checks of `pollOptionSchema`:
`.min(1).max(100)` plus the refine `value.trim().length > 0`. -/
def optionRawValid (s : String) : Bool :=
  decide (1 ≤ textLen s) && decide (textLen s ≤ 100) && decide (0 < textLen (trimText s))

/-- The description transform: `if (!val) return ''` else sanitize and trim. -/
def sanitizeDescription : Option String → String
  | none => ""
  | some d => if d = "" then "" else sanitizeText d

/-- `validateAndSanitizePoll` from `api-client-examples.ts`: field checks on
the raw values, element transforms, then the array-level refinements
(uniqueness of the sanitized options case-insensitively after trimming, via
`new Set(...).size === length`, and non-emptiness after trimming), returning
the sanitized payload on success. -/
def validateAndSanitizePoll (b : RawPoll) : Option SanitizedPoll :=
  if titleValid b.title && descriptionValid b.description
      && decide (2 ≤ b.options.length) && decide (b.options.length ≤ 10)
      && b.options.all optionRawValid then
    let sOpts := b.options.map sanitizeText
    let keys := sOpts.map (fun s => lowerText (trimText s))
    if keys.dedup.length == keys.length
        && sOpts.all (fun s => decide (0 < textLen (trimText s))) then
      some { title := sanitizeText b.title,
             description := sanitizeDescription b.description,
             options := sOpts }
    else none
  else none

/-! ### Environment, events and responses -/

/-- External calls a handler makes, in order.  `verify` carries the token
string handed to the identity verifier; the remaining events are database
round trips. -/
inductive Event where
  | verify (token : String)
  | readPoll (pollId : Nat)
  | readOption (optionId pollId : Nat)
  | writeVote (pollId optionId userId : Nat)
  | writeVoteBody (pollId : Nat) (optionText : String) (userId : Nat)
  | readResults (pollId : Nat)
  | writeAudit
  | writePoll
  | writeOptions
deriving Repr, DecidableEq

/-- Is the event a database read? -/
def Event.isRead : Event → Bool
  | .readPoll _ => true
  | .readOption _ _ => true
  | .readResults _ => true
  | _ => false

/-- Is the event a write into the vote relation? -/
def Event.isVoteWrite : Event → Bool
  | .writeVote _ _ _ => true
  | .writeVoteBody _ _ _ => true
  | _ => false

/-- The environment a request executes in: the identity verifier, the fresh
identifiers and timestamp the database would generate, and the failure modes
of the individual fallible calls.  `insertOverride` injects a storage error
for the vote insert (referential violations and other write faults, which
live outside the snapshot); `resultsReadFails` makes the post-insert results
read fail; `auditFails` makes the audit write fail; `optionsReadFails` makes
the GET options read fail; the two poll-creation writes fail likewise. -/
structure Env where
  verifier : String → Option Nat
  freshVoteId : Nat
  now : Nat
  freshPollId : Nat
  freshOptionId : Nat → Nat
  insertOverride : Option DbError
  resultsReadFails : Bool
  optionsReadFails : Bool
  auditFails : Bool
  pollInsertFails : Bool
  optionsInsertFails : Bool

/-- Best-effort audit write: the entry is appended when the write succeeds
and dropped when it fails; in either case nothing else of the state changes
and no failure escapes (`AuditLogger.log` catches everything, and the
body-keyed route discards the returned error object). -/
def applyAudit (env : Env) (db : DB) (e : AuditEntry) : DB :=
  if env.auditFails then db else { db with audit := e :: db.audit }

/-- Response of the vote POST handlers: HTTP status, message, and on success
the created vote plus the refreshed per-option results. -/
structure VoteResponse where
  status : Nat
  message : String
  vote : Option VoteRow := none
  results : Option (List PollOption) := none
deriving Repr, DecidableEq

/-- Stable insertion into a list sorted by descending `votes`. -/
def insertDesc (a : PollOption) : List PollOption → List PollOption
  | [] => [a]
  | b :: l => if b.votes < a.votes then a :: b :: l else b :: insertDesc a l

/-- Stable sort by descending `votes` (`.order('votes', ascending: false)`). -/
def sortVotesDesc : List PollOption → List PollOption
  | [] => []
  | a :: l => insertDesc a (sortVotesDesc l)

/-- The results read both vote-route handlers perform: the options of the
poll ordered by descending vote counter. -/
def pollTallies (db : DB) (pollId : Nat) : List PollOption :=
  sortVotesDesc (db.options.filter (fun o => o.poll_id == pollId))

/-! ### Path-keyed vote endpoint: `POST /api/polls/[id]/vote` -/

/-- The existence guard, insert, error translation, audit and results steps
of the path-keyed vote POST (lines 92-185 of its route file), entered after
body validation and authentication.  Returns the response, the trace of
external calls made from the first guard read on, and the final database
state.  The error translation matches the inline 23505 branch and
`handleVoteError` (23503 to 400, otherwise 500). -/
def voteGuardAndInsert (env : Env) (db : DB) (pollId optionId userId : Nat) :
    VoteResponse × List Event × DB :=
  match findPoll db pollId with
  | none => ({ status := 404, message := "Poll not found" }, [.readPoll pollId], db)
  | some poll =>
    if !poll.is_active then
      ({ status := 400, message := "Poll is no longer active" }, [.readPoll pollId], db)
    else
      match findOption db optionId pollId with
      | none =>
        ({ status := 400, message := "Invalid option for this poll" },
         [.readPoll pollId, .readOption optionId pollId], db)
      | some opt =>
        let trace3 : List Event :=
          [.readPoll pollId, .readOption optionId pollId, .writeVote pollId optionId userId]
        let insertRes : Except DbError (VoteRow × DB) :=
          match env.insertOverride with
          | some e => .error e
          | none => tryInsertVote db
              { id := env.freshVoteId, poll_id := pollId, option_id := optionId,
                user_id := userId, created_at := env.now }
        match insertRes with
        | .error e =>
          if e.code == "23505" then
            ({ status := 409, message := "You have already voted on this poll" }, trace3, db)
          else if e.code == "23503" then
            ({ status := 400, message := "Invalid poll or option" }, trace3, db)
          else
            ({ status := 500, message := "Failed to submit vote" }, trace3, db)
        | .ok (v, db1) =>
          let db2 := applyAudit env db1
            { user_id := some userId, action := "vote_submitted",
              target_id := some pollId, detail := opt.text }
          let results := if env.resultsReadFails then [] else pollTallies db2 pollId
          ({ status := 201, message := "Vote submitted successfully!",
             vote := some v, results := some results },
           trace3 ++ [.writeAudit, .readResults pollId], db2)

/-- The full path-keyed vote POST: body validation (`voteSchema`), the cheap
token extraction `header?.replace("Bearer ", "")` with its emptiness check,
the identity-verifier exchange, then `voteGuardAndInsert`.  `body` is `none`
when the posted `option_id` failed schema validation. -/
def votePostPath (env : Env) (db : DB) (pollId : Nat) (body : Option Nat)
    (header : Option String) : VoteResponse × List Event × DB :=
  match body with
  | none => ({ status := 400, message := "Validation failed" }, [], db)
  | some optionId =>
    let token := match header with
      | none => ""
      | some h => removeFirstText h "Bearer "
    if token == "" then
      ({ status := 401, message := "No token provided" }, [], db)
    else
      match env.verifier token with
      | none => ({ status := 401, message := "Invalid token" }, [.verify token], db)
      | some userId =>
        let r := voteGuardAndInsert env db pollId optionId userId
        (r.1, .verify token :: r.2.1, r.2.2)

/-! ### Path-keyed results endpoint: `GET /api/polls/[id]/vote` -/

/-- Response of the GET handler: status, the summed total and the options
paired with their computed percentage. -/
structure GetResponse where
  status : Nat
  total : Int
  results : List (PollOption × Int)
deriving Repr, DecidableEq

/-- `Math.round((count / total) * 100)` for non-negative `count ≤ total`:
half-up rounding of `100 * count / total`, computed exactly. -/
def roundPct (count total : Int) : Int := (200 * count + total) / (2 * total)

/-- The GET handler: poll lookup (404 when absent), options read (500 when
that read fails), then total and per-option percentages, zero everywhere
when the total is zero. -/
def voteGetPath (env : Env) (db : DB) (pollId : Nat) : GetResponse :=
  match findPoll db pollId with
  | none => { status := 404, total := 0, results := [] }
  | some _ =>
    if env.optionsReadFails then { status := 500, total := 0, results := [] }
    else
      let opts := pollTallies db pollId
      let total := (opts.map (fun o => o.votes)).sum
      { status := 200, total := total,
        results := opts.map (fun o => (o, if 0 < total then roundPct o.votes total else 0)) }

/-! ### Body-keyed vote endpoint: `POST /api/vote`

This endpoint lives in the other source tree (`src/src/app/api/vote`), whose
migrations give `polls` an `options text[]` column and `votes` an `option
text` column, again with the `unique_user_poll_vote` constraint over
`(poll_id, user_id)`. -/

/-- A row of the body-keyed tree's `polls` table. -/
structure PollB where
  id : Nat
  title : String
  description : Option String
  options : List String
  owner : Nat
  is_active : Bool
deriving Repr, DecidableEq

/-- A row of the body-keyed tree's `votes` table. -/
structure VoteB where
  id : Nat
  poll_id : Nat
  user_id : Nat
  option : String
deriving Repr, DecidableEq

/-- Snapshot of the body-keyed tree's database. -/
structure DBB where
  polls : List PollB
  votes : List VoteB
  audit : List AuditEntry
deriving Repr, DecidableEq

/-- The atomic vote insert against the body-keyed schema, guarded by the same
`unique_user_poll_vote` constraint. -/
def tryInsertVoteB (db : DBB) (v : VoteB) : Except DbError (VoteB × DBB) :=
  if db.votes.any (fun w => w.poll_id == v.poll_id && w.user_id == v.user_id) then
    .error { code := "23505",
             message := "duplicate key value violates unique constraint unique_user_poll_vote" }
  else
    .ok (v, { db with votes := v :: db.votes })

/-- Response of the body-keyed vote POST: status, the error message or
success flag, and on success the inserted rows returned by `.select()`. -/
structure VoteBodyResponse where
  status : Nat
  message : String
  data : Option (List VoteB) := none
deriving Repr, DecidableEq

/-- The duplicate test of the body-keyed route:
`error.code === "23505" || /(duplicate|unique)/i.test(error.message)`. -/
def isDuplicateErrB (e : DbError) : Bool :=
  e.code == "23505" || containsInsensitive e.message "duplicate"
    || containsInsensitive e.message "unique"

/-- The body-keyed vote POST (`src/src/app/api/vote/route.ts`): token
extraction and verifier exchange first, then body validation
(`poll_id` a uuid, `option` a string of length 1 to 150), then the
unconditional insert.  No poll-existence, poll-active or option-membership
check is made.  A failed insert maps to 409 when `isDuplicateErrB` holds and
to 500 otherwise; the audit insert's returned error is discarded. -/
def votePostBody (env : Env) (db : DBB) (body : Option (Nat × String))
    (header : Option String) : VoteBodyResponse × List Event × DBB :=
  let token := match header with
    | none => ""
    | some h => removeFirstText h "Bearer "
  if token == "" then
    ({ status := 401, message := "Unauthorized" }, [], db)
  else
    match env.verifier token with
    | none => ({ status := 401, message := "Unauthorized" }, [.verify token], db)
    | some userId =>
      match body with
      | none => ({ status := 400, message := "Invalid input" }, [.verify token], db)
      | some (pollId, optionText) =>
        if !(decide (1 ≤ textLen optionText) && decide (textLen optionText ≤ 150)) then
          ({ status := 400, message := "Invalid input" }, [.verify token], db)
        else
          let insertRes : Except DbError (VoteB × DBB) :=
            match env.insertOverride with
            | some e => .error e
            | none => tryInsertVoteB db
                { id := env.freshVoteId, poll_id := pollId,
                  user_id := userId, option := optionText }
          let trace2 : List Event := [.verify token, .writeVoteBody pollId optionText userId]
          match insertRes with
          | .error e =>
            if isDuplicateErrB e then
              ({ status := 409, message := "User already voted" }, trace2, db)
            else
              ({ status := 500, message := "Failed to submit vote" }, trace2, db)
          | .ok (v, db1) =>
            let db2 : DBB :=
              if env.auditFails then db1
              else { db1 with audit :=
                { user_id := some userId, action := "vote",
                  target_id := some pollId, detail := optionText } :: db1.audit }
            ({ status := 201, message := "success", data := some [v] },
             trace2 ++ [.writeAudit], db2)

/-! ### Poll creation endpoint: `POST /api/polls` -/

/-- Response of the poll-creation POST. -/
structure PollsResponse where
  status : Nat
  message : String
  pollId : Option Nat := none
deriving Repr, DecidableEq

/-- The option rows created for a new poll: drop options that trim to the
empty string, then number the survivors (`votes: 0`, index as the ordering
field; the source emits the index under the key `order`). -/
def newOptionRows (env : Env) (pollId : Nat) (opts : List String) : List PollOption :=
  (opts.filter (fun o => !(trimText o == ""))).enum.map
    (fun p => { id := env.freshOptionId p.1, poll_id := pollId, text := trimText p.2,
                votes := 0, order_index := p.1 })

/-- The poll-creation POST (`src/alx-polling-app/src/app/api/polls/route.ts`):
content-length ceiling, JSON parse (`body = none` when it throws, caught by
the outer handler as 500), serialized-size ceiling, validation and
sanitization, then the auth-header format checks (`startsWith "Bearer "`,
stripped-and-trimmed token non-empty and at least 10 characters) before the
verifier exchange, the two inserts and the best-effort audit write.
`bodyLen` is the length of `JSON.stringify(body)`. -/
def pollsPost (env : Env) (db : DB) (contentLength : Option Nat) (bodyLen : Nat)
    (body : Option RawPoll) (header : Option String) :
    PollsResponse × List Event × DB :=
  if (match contentLength with | some n => decide (10000 < n) | none => false) then
    ({ status := 413, message := "Request too large" }, [], db)
  else
    match body with
    | none => ({ status := 500, message := "An unexpected error occurred" }, [], db)
    | some b =>
      if 10000 < bodyLen then
        ({ status := 413, message := "Request payload too large" }, [], db)
      else
        match validateAndSanitizePoll b with
        | none => ({ status := 400, message := "Validation failed" }, [], db)
        | some s =>
          let headerOk := match header with
            | none => false
            | some h => startsWithText h "Bearer "
          if !headerOk then
            ({ status := 401, message := "Invalid authorization header format" }, [], db)
          else
            let token := trimText (removeFirstText (header.getD "") "Bearer ")
            if token == "" || decide (textLen token < 10) then
              ({ status := 401, message := "Invalid token format" }, [], db)
            else
              match env.verifier token with
              | none =>
                ({ status := 401, message := "Unauthorized - Invalid token" },
                 [.verify token], db)
              | some userId =>
                if env.pollInsertFails then
                  ({ status := 500, message := "Failed to create poll" },
                   [.verify token, .writePoll], db)
                else
                  let poll : Poll :=
                    { id := env.freshPollId, title := s.title,
                      description := if s.description == "" then none else some s.description,
                      is_active := true, owner_id := userId }
                  let db1 := { db with polls := poll :: db.polls }
                  if env.optionsInsertFails then
                    ({ status := 500, message := "Poll created but options failed" },
                     [.verify token, .writePoll, .writeOptions], db1)
                  else
                    let db2 := { db1 with
                      options := db1.options ++ newOptionRows env env.freshPollId s.options }
                    let db3 := applyAudit env db2
                      { user_id := some userId, action := "poll_created",
                        target_id := some env.freshPollId, detail := s.title }
                    ({ status := 201, message := "Poll created successfully!",
                       pollId := some env.freshPollId },
                     [.verify token, .writePoll, .writeOptions, .writeAudit], db3)

/-! ### Concurrency model for the vote insert

The vote insert is the only write into the vote relation and is atomic (one
constraint-checked statement), so an arbitrary interleaving of N concurrent
attempts is, as far as the vote relation is concerned, some sequential order
of their inserts.  `runAttempts` executes such an order and records each
attempt's outcome as classified by the protocol. -/

/-- Outcome of one vote-insert attempt: success, duplicate conflict (unique
violation, code 23505, mapped to 409 by the routes), or another failure. -/
inductive VoteOutcome where
  | success
  | conflict
  | otherFailure
deriving Repr, DecidableEq

/-- Classify an insert result. -/
def outcomeOf (r : Except DbError (VoteRow × DB)) : VoteOutcome :=
  match r with
  | .ok _ => .success
  | .error e => if e.code == "23505" then .conflict else .otherFailure

/-- Run a list of insert attempts in the given serialization order,
collecting the outcomes. -/
def runAttempts (db : DB) : List VoteRow → List VoteOutcome × DB
  | [] => ([], db)
  | a :: rest =>
    match tryInsertVote db a with
    | .ok (_, db1) =>
      let r := runAttempts db1 rest
      (.success :: r.1, r.2)
    | .error e =>
      let r := runAttempts db rest
      (outcomeOf (.error e) :: r.1, r.2)

/-- Did the insert succeed? -/
def insOk : Except DbError (VoteRow × DB) → Bool
  | .ok _ => true
  | .error _ => false

/-- Did a handler run attempt the vote-relation write? -/
def insertAttempted (r : VoteResponse × List Event × DB) : Bool :=
  r.2.1.any Event.isVoteWrite

/-! ### Concrete fixtures used by witnesses and counterexamples -/

/-- A benign environment: one valid token, fresh ids, no injected failures. -/
def envW : Env :=
  { verifier := fun t => if t == "validtoken123" then some 42 else none,
    freshVoteId := 100, now := 5, freshPollId := 7,
    freshOptionId := fun i => 200 + i,
    insertOverride := none, resultsReadFails := false, optionsReadFails := false,
    auditFails := false, pollInsertFails := false, optionsInsertFails := false }

/-- Fixture: an active poll. -/
def pollW1 : Poll :=
  { id := 1, title := "Best language", description := none,
    is_active := true, owner_id := 9 }

/-- Fixture: a second active poll (owner of the cross-poll option). -/
def pollW2 : Poll :=
  { id := 2, title := "Best editor", description := none,
    is_active := true, owner_id := 9 }

/-- Fixture: an inactive poll. -/
def pollW3 : Poll :=
  { id := 3, title := "Closed poll", description := none,
    is_active := false, owner_id := 9 }

/-- Fixture: option 10 of poll 1. -/
def optW10 : PollOption :=
  { id := 10, poll_id := 1, text := "TypeScript", votes := 0, order_index := 0 }

/-- Fixture: option 11 of poll 1. -/
def optW11 : PollOption :=
  { id := 11, poll_id := 1, text := "Rust", votes := 0, order_index := 1 }

/-- Fixture: option 20 of poll 2 (exists, but belongs to a different poll). -/
def optW20 : PollOption :=
  { id := 20, poll_id := 2, text := "Vim", votes := 0, order_index := 0 }

/-- Fixture database for the path-keyed endpoints: two active polls, one
inactive poll, three options, no votes yet. -/
def dbW : DB :=
  { polls := [pollW1, pollW2, pollW3], options := [optW10, optW11, optW20],
    votes := [], audit := [] }

/-- Fixture database with counters [5, 3] on the options of poll 1. -/
def dbC8a : DB :=
  { polls := [pollW1],
    options := [{ optW10 with votes := 5 }, { optW11 with votes := 3 }],
    votes := [], audit := [] }

/-- Fixture database with counters [0, 0] on the options of poll 1. -/
def dbC8b : DB :=
  { polls := [pollW1], options := [optW10, optW11], votes := [], audit := [] }

/-- Fixture database for the body-keyed endpoint: poll 1 exists but is
inactive; nobody has voted. -/
def dbBW : DBB :=
  { polls := [{ id := 1, title := "Closed poll", description := none,
                options := ["Yes", "No"], owner := 9, is_active := false }],
    votes := [], audit := [] }

/-- Fixture database for the path-keyed endpoint matching `dbBW`: poll 1
exists with an option but is inactive. -/
def dbPW : DB :=
  { polls := [{ pollW1 with is_active := false }], options := [optW10],
    votes := [], audit := [] }

/-- Fixture: a plain well-formed poll payload. -/
def rawW : RawPoll :=
  { title := "My poll", description := none, options := ["A", "B"] }

/-- Fixture: a poll payload whose every free-form field carries markup. -/
def rawXssW : RawPoll :=
  { title := "<script>alert(1)</script>Vote Now", description := some "<b>Hi</b>",
    options := ["<script>alert(1)</script>Vote Now", "<b>Hi</b>"] }

/-- Fixture: a referential-integrity error as Postgres reports it. -/
def fkErrW : DbError :=
  { code := "23503",
    message := "insert or update on table votes violates foreign key constraint" }

/-- Fixture: a vote attempt by user 42 on option 10 of poll 1. -/
def attA : VoteRow :=
  { id := 100, poll_id := 1, option_id := 10, user_id := 42, created_at := 0 }

/-- Fixture: a second concurrent attempt by the same user on another option
of the same poll. -/
def attB : VoteRow :=
  { id := 101, poll_id := 1, option_id := 11, user_id := 42, created_at := 0 }

/-! ### Helper lemmas -/

/-- The audit write never touches the `polls` relation. -/
theorem applyAudit_polls (env : Env) (db : DB) (e : AuditEntry) :
    (applyAudit env db e).polls = db.polls := by
  unfold applyAudit; split <;> rfl

/-- The audit write never touches the `poll_options` relation. -/
theorem applyAudit_options (env : Env) (db : DB) (e : AuditEntry) :
    (applyAudit env db e).options = db.options := by
  unfold applyAudit; split <;> rfl

/-- The audit write never touches the `votes` relation. -/
theorem applyAudit_votes (env : Env) (db : DB) (e : AuditEntry) :
    (applyAudit env db e).votes = db.votes := by
  unfold applyAudit; split <;> rfl

/-- Tallies are unaffected by the audit write. -/
theorem pollTallies_applyAudit (env : Env) (db : DB) (e : AuditEntry) (p : Nat) :
    pollTallies (applyAudit env db e) p = pollTallies db p := by
  unfold pollTallies; rw [applyAudit_options]

/-- Counter consistency is unaffected by the audit write. -/
theorem countersConsistentB_applyAudit (env : Env) (db : DB) (e : AuditEntry) :
    countersConsistentB (applyAudit env db e) = countersConsistentB db := by
  unfold countersConsistentB; rw [applyAudit_options, applyAudit_votes]

/-- Stable descending insertion permutes to consing. -/
theorem insertDesc_perm (a : PollOption) (l : List PollOption) :
    (insertDesc a l).Perm (a :: l) := by
  induction l with
  | nil => exact List.Perm.refl _
  | cons b l ih =>
    unfold insertDesc
    split
    · exact List.Perm.refl _
    · exact (List.Perm.cons b ih).trans (List.Perm.swap a b l)

/-- The descending sort permutes its input. -/
theorem sortVotesDesc_perm (l : List PollOption) : (sortVotesDesc l).Perm l := by
  induction l with
  | nil => exact List.Perm.refl _
  | cons a l ih =>
    exact (insertDesc_perm a (sortVotesDesc l)).trans (List.Perm.cons a ih)

/-! ### Claim theorems -/

/-- C6: every free-form text field of a poll payload (title, description,
each option) is passed through the HTML-neutralizing transform that strips
markup tags while keeping the textual content: the payload whose title,
description and options are `"<script>alert(1)</script>Vote Now"` and
`"<b>Hi</b>"` validates successfully with every field sanitized to
`"alert(1)Vote Now"` resp. `"Hi"`, and the transform itself maps those two
inputs accordingly. -/
theorem sanitization_strips_markup :
    validateAndSanitizePoll rawXssW =
      some { title := "alert(1)Vote Now", description := "Hi",
             options := ["alert(1)Vote Now", "Hi"] } ∧
    sanitizeText "<script>alert(1)</script>Vote Now" = "alert(1)Vote Now" ∧
    sanitizeText "<b>Hi</b>" = "Hi" := by
  refine ⟨by decide, by decide, by decide⟩

/-- C8: on the results read path, the total is the sum of the per-option
counters and each option's percentage is `round(100 * count / total)` when
the total is positive and `0` when it is zero; concretely, counters `[5, 3]`
give total `8` and percentages `[63, 38]`, and counters `[0, 0]` give total
`0` and percentages `[0, 0]`. -/
theorem results_percentages :
    (∀ (env : Env) (db : DB) (p : Nat) (poll : Poll),
      findPoll db p = some poll → env.optionsReadFails = false →
      (voteGetPath env db p).status = 200 ∧
      (voteGetPath env db p).total =
        ((db.options.filter (fun o => o.poll_id == p)).map (fun o => o.votes)).sum ∧
      (∀ e ∈ (voteGetPath env db p).results,
        e.2 = if 0 < (voteGetPath env db p).total
              then roundPct e.1.votes (voteGetPath env db p).total else 0)) ∧
    (voteGetPath envW dbC8a 1).total = 8 ∧
    ((voteGetPath envW dbC8a 1).results.map Prod.snd) = [63, 38] ∧
    (voteGetPath envW dbC8b 1).total = 0 ∧
    ((voteGetPath envW dbC8b 1).results.map Prod.snd) = [0, 0] := by
  refine ⟨?_, by decide, by decide, by decide, by decide⟩
  intro env db p poll hp hf
  have hsum : ((pollTallies db p).map (fun o => o.votes)).sum =
      ((db.options.filter (fun o => o.poll_id == p)).map (fun o => o.votes)).sum :=
    ((sortVotesDesc_perm _).map _).sum_eq
  refine ⟨?_, ?_, ?_⟩
  · simp [voteGetPath, hp, hf]
  · simp [voteGetPath, hp, hf, hsum]
  · intro e he
    simp only [voteGetPath, hp, hf, Bool.false_eq_true, if_false] at he ⊢
    rcases List.mem_map.mp he with ⟨o, _, rfl⟩
    rfl

/-- C8 witness: the general percentage statement at the concrete database
with counters `[5, 3]`. -/
theorem results_percentages_witness :
    (voteGetPath envW dbC8a 1).status = 200 ∧
    (∀ e ∈ (voteGetPath envW dbC8a 1).results,
      e.2 = if 0 < (voteGetPath envW dbC8a 1).total
            then roundPct e.1.votes (voteGetPath envW dbC8a 1).total else 0) := by
  have h := results_percentages.1 envW dbC8a 1 pollW1 (by decide) (by decide)
  exact ⟨h.1, h.2.2⟩

/-- The vote-relation write is attempted exactly when the three guard checks
pass: the poll is found, it is active, and the option lookup succeeds. -/
theorem insertAttempted_guard_eq (env : Env) (db : DB) (p o u : Nat) :
    insertAttempted (voteGuardAndInsert env db p o u) =
      (match findPoll db p with
       | none => false
       | some poll => poll.is_active && (findOption db o p).isSome) := by
  cases hp : findPoll db p with
  | none => simp [voteGuardAndInsert, insertAttempted, hp, Event.isVoteWrite]
  | some poll =>
    cases ha : poll.is_active with
    | false => simp [voteGuardAndInsert, insertAttempted, hp, ha, Event.isVoteWrite]
    | true =>
      cases ho : findOption db o p with
      | none => simp [voteGuardAndInsert, insertAttempted, hp, ha, ho, Event.isVoteWrite]
      | some opt =>
        simp only [voteGuardAndInsert, hp, ha, ho, insertAttempted, Bool.not_true,
          Bool.false_eq_true, if_false, Option.isSome_some, Bool.and_true]
        cases hi : env.insertOverride with
        | some e =>
          simp only [hi]
          by_cases h1 : (e.code == "23505") = true
          · simp [h1, Event.isVoteWrite]
          · by_cases h2 : (e.code == "23503") = true
            · simp [h1, h2, Event.isVoteWrite]
            · simp [h1, h2, Event.isVoteWrite]
        | none =>
          simp only [hi]
          cases ht : tryInsertVote db
              { id := env.freshVoteId, poll_id := p, option_id := o,
                user_id := u, created_at := env.now } with
          | error e =>
            by_cases h1 : (e.code == "23505") = true
            · simp [h1, Event.isVoteWrite]
            · by_cases h2 : (e.code == "23503") = true
              · simp [h1, h2, Event.isVoteWrite]
              · simp [h1, h2, Event.isVoteWrite]
          | ok pr => simp [Event.isVoteWrite]

/-- C4: before the vote insert, the existence guard decides in order: a
missing poll gives 404; an existing but inactive poll gives 400 "no longer
active" for every option id; an active poll whose option lookup (id and
parent-poll reference both matching) finds nothing gives 400 "invalid option
for this poll"; and the vote-relation write is attempted exactly when all
three checks pass. -/
theorem existence_guard_decision (env : Env) (db : DB) (p o u : Nat) :
    (findPoll db p = none →
      (voteGuardAndInsert env db p o u).1.status = 404 ∧
      (voteGuardAndInsert env db p o u).1.message = "Poll not found") ∧
    (∀ poll, findPoll db p = some poll → poll.is_active = false →
      (voteGuardAndInsert env db p o u).1.status = 400 ∧
      (voteGuardAndInsert env db p o u).1.message = "Poll is no longer active") ∧
    (∀ poll, findPoll db p = some poll → poll.is_active = true →
      findOption db o p = none →
      (voteGuardAndInsert env db p o u).1.status = 400 ∧
      (voteGuardAndInsert env db p o u).1.message = "Invalid option for this poll") ∧
    (insertAttempted (voteGuardAndInsert env db p o u) =
      (match findPoll db p with
       | none => false
       | some poll => poll.is_active && (findOption db o p).isSome)) := by
  refine ⟨?_, ?_, ?_, ?_⟩
  · intro hp; simp [voteGuardAndInsert, hp]
  · intro poll hp ha; simp [voteGuardAndInsert, hp, ha]
  · intro poll hp ha ho; simp [voteGuardAndInsert, hp, ha, ho]
  · exact insertAttempted_guard_eq env db p o u

/-- C4 witness: the guard at concrete requests: missing poll 99 gives 404,
inactive poll 3 gives 400 "no longer active", and option 20 (which exists
but belongs to poll 2) requested against poll 1 gives 400 "invalid option",
with the insert attempted only on the fully valid request. -/
theorem existence_guard_decision_witness :
    ((voteGuardAndInsert envW dbW 99 10 42).1.status = 404 ∧
      (voteGuardAndInsert envW dbW 99 10 42).1.message = "Poll not found") ∧
    (voteGuardAndInsert envW dbW 3 10 42).1.message = "Poll is no longer active" ∧
    (voteGuardAndInsert envW dbW 1 20 42).1.message = "Invalid option for this poll" := by
  refine ⟨(existence_guard_decision envW dbW 99 10 42).1 (by decide),
    ((existence_guard_decision envW dbW 3 10 42).2.1 pollW3 (by decide) (by decide)).2,
    ((existence_guard_decision envW dbW 1 20 42).2.2.1 pollW1 (by decide) (by decide)
      (by decide)).2⟩

/-- C3 counterexample: the body-keyed endpoint translates a
referential-integrity failure (code 23503) of the vote insert to a 500, not
to the 400 the claim asserts for every failed vote insert. -/
theorem db_error_translation_counterexample :
    (votePostBody { envW with insertOverride := some fkErrW } dbBW (some (1, "Yes"))
      (some "Bearer validtoken123")).1.status = 500 ∧
    ¬ (votePostBody { envW with insertOverride := some fkErrW } dbBW (some (1, "Yes"))
      (some "Bearer validtoken123")).1.status = 400 := by
  exact ⟨by decide, by decide⟩

/-- C3 (amended): on a failed vote insert the path-keyed endpoint translates
code 23505 to 409 "already voted", code 23503 to 400, and anything else to
500, and its response is a function of the error code alone (raw error
detail never reaches the body); the body-keyed endpoint translates an error
whose code is 23505 or whose message contains "duplicate" or "unique"
(case-insensitively) to 409 and every other failure, 23503 included, to 500,
its response message drawn from two fixed strings. -/
theorem db_error_translation :
    (∀ (env : Env) (db : DB) (p o u : Nat) (poll : Poll) (opt : PollOption) (e : DbError),
      findPoll db p = some poll → poll.is_active = true →
      findOption db o p = some opt → env.insertOverride = some e →
      (e.code = "23505" →
        (voteGuardAndInsert env db p o u).1.status = 409 ∧
        (voteGuardAndInsert env db p o u).1.message = "You have already voted on this poll") ∧
      (e.code = "23503" →
        (voteGuardAndInsert env db p o u).1.status = 400 ∧
        (voteGuardAndInsert env db p o u).1.message = "Invalid poll or option") ∧
      (e.code ≠ "23505" → e.code ≠ "23503" →
        (voteGuardAndInsert env db p o u).1.status = 500 ∧
        (voteGuardAndInsert env db p o u).1.message = "Failed to submit vote") ∧
      (∀ m, (voteGuardAndInsert
          { env with insertOverride := some { code := e.code, message := m } } db p o u).1 =
        (voteGuardAndInsert env db p o u).1)) ∧
    (∀ (env : Env) (db : DBB) (pid : Nat) (otext h : String) (uid : Nat) (e : DbError),
      removeFirstText h "Bearer " ≠ "" →
      env.verifier (removeFirstText h "Bearer ") = some uid →
      1 ≤ textLen otext → textLen otext ≤ 150 →
      env.insertOverride = some e →
      (isDuplicateErrB e = true →
        (votePostBody env db (some (pid, otext)) (some h)).1.status = 409 ∧
        (votePostBody env db (some (pid, otext)) (some h)).1.message = "User already voted") ∧
      (isDuplicateErrB e = false →
        (votePostBody env db (some (pid, otext)) (some h)).1.status = 500 ∧
        (votePostBody env db (some (pid, otext)) (some h)).1.message = "Failed to submit vote") ∧
      ((votePostBody env db (some (pid, otext)) (some h)).1.message = "User already voted" ∨
        (votePostBody env db (some (pid, otext)) (some h)).1.message = "Failed to submit vote")) := by
  constructor
  · intro env db p o u poll opt e hp ha ho hi
    refine ⟨?_, ?_, ?_, ?_⟩
    · intro h5; simp [voteGuardAndInsert, hp, ha, ho, hi, h5]
    · intro h3; simp [voteGuardAndInsert, hp, ha, ho, hi, h3]
    · intro h5 h3; simp [voteGuardAndInsert, hp, ha, ho, hi, h5, h3]
    · intro m
      simp only [voteGuardAndInsert, hp, ha, ho, hi, Bool.not_true, Bool.false_eq_true,
        if_false]
  · intro env db pid otext h uid e hne hv h1 h2 hi
    have hb : (removeFirstText h "Bearer " == "") = false := by
      simpa using hne
    refine ⟨?_, ?_, ?_⟩
    · intro hd; simp [votePostBody, hb, hv, h1, h2, hi, hd]
    · intro hd; simp [votePostBody, hb, hv, h1, h2, hi, hd]
    · by_cases hd : isDuplicateErrB e = true
      · left; simp [votePostBody, hb, hv, h1, h2, hi, hd]
      · right
        simp only [Bool.not_eq_true] at hd
        simp [votePostBody, hb, hv, h1, h2, hi, hd]

/-- C3 witness: the path-keyed endpoint maps the concrete 23503 error to a
400, and the body-keyed endpoint maps the same error to its generic 500
message. -/
theorem db_error_translation_witness :
    (voteGuardAndInsert { envW with insertOverride := some fkErrW } dbW 1 10 42).1.status = 400 ∧
    (votePostBody { envW with insertOverride := some fkErrW } dbBW (some (1, "Yes"))
      (some "Bearer validtoken123")).1.message = "Failed to submit vote" := by
  refine ⟨((db_error_translation.1 { envW with insertOverride := some fkErrW } dbW 1 10 42
      pollW1 optW10 fkErrW (by decide) (by decide) (by decide) rfl).2.1 (by decide)).1, ?_⟩
  exact ((db_error_translation.2 { envW with insertOverride := some fkErrW } dbBW 1 "Yes"
      "Bearer validtoken123" 42 fkErrW (by decide) (by decide) (by decide) (by decide)
      rfl).2.1 (by decide)).2

/-- C7 counterexample: on the path-keyed vote endpoint a request whose
Authorization header is `"Token abc"` (wrong scheme) is answered 401 only
AFTER the header value has been sent to the identity verifier: the trace of
external calls is `[verify "Token abc"]`, not the empty trace the claim
requires before the 401. -/
theorem auth_cheap_rejection_counterexample :
    (votePostPath envW dbW 1 (some 10) (some "Token abc")).1.status = 401 ∧
    (votePostPath envW dbW 1 (some 10) (some "Token abc")).2.1 =
      [Event.verify "Token abc"] ∧
    ¬ (votePostPath envW dbW 1 (some 10) (some "Token abc")).2.1 = [] := by
  exact ⟨by decide, by decide, by decide⟩

/-- C7 (amended): the poll-creation endpoint rejects a malformed scheme, and
a token shorter than 10 characters after stripping and trimming, with a 401
and no external call at all (given the request passed the earlier size and
body-validation steps); the path-keyed vote endpoint rejects without any
external call ONLY a missing header or one that strips to an empty token:
for every other header value the first external call of the run is the
verifier exchange carrying the stripped header value, and when the verifier
rejects it the 401 arrives only after that one network call. -/
theorem auth_cheap_rejection :
    (∀ (env : Env) (db : DB) (cl : Option Nat) (bl : Nat) (b : RawPoll)
        (s : SanitizedPoll) (h : String),
      (∀ n, cl = some n → n ≤ 10000) → bl ≤ 10000 →
      validateAndSanitizePoll b = some s →
      startsWithText h "Bearer " = false →
      (pollsPost env db cl bl (some b) (some h)).1.status = 401 ∧
      (pollsPost env db cl bl (some b) (some h)).1.message =
        "Invalid authorization header format" ∧
      (pollsPost env db cl bl (some b) (some h)).2.1 = []) ∧
    (∀ (env : Env) (db : DB) (cl : Option Nat) (bl : Nat) (b : RawPoll)
        (s : SanitizedPoll) (h : String),
      (∀ n, cl = some n → n ≤ 10000) → bl ≤ 10000 →
      validateAndSanitizePoll b = some s →
      startsWithText h "Bearer " = true →
      textLen (trimText (removeFirstText h "Bearer ")) < 10 →
      (pollsPost env db cl bl (some b) (some h)).1.status = 401 ∧
      (pollsPost env db cl bl (some b) (some h)).1.message = "Invalid token format" ∧
      (pollsPost env db cl bl (some b) (some h)).2.1 = []) ∧
    (∀ (env : Env) (db : DB) (p o : Nat),
      (votePostPath env db p (some o) none).1.status = 401 ∧
      (votePostPath env db p (some o) none).2.1 = []) ∧
    (∀ (env : Env) (db : DB) (p o : Nat) (h : String),
      removeFirstText h "Bearer " = "" →
      (votePostPath env db p (some o) (some h)).1.status = 401 ∧
      (votePostPath env db p (some o) (some h)).2.1 = []) ∧
    (∀ (env : Env) (db : DB) (p o : Nat) (h : String),
      removeFirstText h "Bearer " ≠ "" →
      (votePostPath env db p (some o) (some h)).2.1.head? =
        some (Event.verify (removeFirstText h "Bearer ")) ∧
      (env.verifier (removeFirstText h "Bearer ") = none →
        (votePostPath env db p (some o) (some h)).1.status = 401 ∧
        (votePostPath env db p (some o) (some h)).2.1 =
          [Event.verify (removeFirstText h "Bearer ")])) := by
  have firstGate : ∀ (cl : Option Nat), (∀ n, cl = some n → n ≤ 10000) →
      (match cl with | some n => decide (10000 < n) | none => false) = false := by
    intro cl hcl
    cases cl with
    | none => rfl
    | some n =>
      have := hcl n rfl
      simp only [decide_eq_false_iff_not]
      omega
  refine ⟨?_, ?_, ?_, ?_, ?_⟩
  · intro env db cl bl b s h hcl hbl hv hs
    simp [pollsPost, firstGate cl hcl, Nat.not_lt.mpr hbl, hv, hs]
  · intro env db cl bl b s h hcl hbl hv hs htok
    simp [pollsPost, firstGate cl hcl, Nat.not_lt.mpr hbl, hv, hs, htok]
  · intro env db p o
    simp [votePostPath]
  · intro env db p o h hh
    simp [votePostPath, hh]
  · intro env db p o h hne
    have hb : (removeFirstText h "Bearer " == "") = false := by simpa using hne
    constructor
    · simp only [votePostPath, hb, Bool.false_eq_true, if_false]
      cases hv : env.verifier (removeFirstText h "Bearer ") with
      | none => simp [hv]
      | some uid => simp [hv]
    · intro hv
      simp [votePostPath, hb, hv]

/-- C7 witness: a well-formed small poll payload with header `"Token abc"`
is rejected by the poll-creation endpoint with 401 and an empty trace, and a
vote request with no header at all is likewise rejected with no external
call. -/
theorem auth_cheap_rejection_witness :
    ((pollsPost envW dbW none 50 (some rawW) (some "Token abc")).1.status = 401 ∧
      (pollsPost envW dbW none 50 (some rawW) (some "Token abc")).2.1 = []) ∧
    ((votePostPath envW dbW 1 (some 10) none).1.status = 401 ∧
      (votePostPath envW dbW 1 (some 10) none).2.1 = []) ∧
    ((votePostPath envW dbW 1 (some 10) (some "Token abc")).2.1.head? =
        some (Event.verify (removeFirstText "Token abc" "Bearer ")) ∧
      (votePostPath envW dbW 1 (some 10) (some "Token abc")).1.status = 401) := by
  have h1 := auth_cheap_rejection.1 envW dbW none 50 rawW
    { title := "My poll", description := "", options := ["A", "B"] } "Token abc"
    (by intro n hn; cases hn) (by decide) (by decide) (by decide)
  have h2 := auth_cheap_rejection.2.2.1 envW dbW 1 10
  have h3 := auth_cheap_rejection.2.2.2.2 envW dbW 1 10 "Token abc" (by decide)
  exact ⟨⟨h1.1, h1.2.2⟩, h2, h3.1, (h3.2 (by decide)).1⟩

/-- C5 counterexample: when the vote insert succeeds but the post-insert
results read fails, the endpoint still answers 201 yet its body carries an
empty results list instead of the refreshed per-option tallies (which are
non-empty here: poll 1 has options whose counters the insert just bumped). -/
theorem vote_success_response_counterexample :
    (voteGuardAndInsert { envW with resultsReadFails := true } dbW 1 10 42).1.status = 201 ∧
    (voteGuardAndInsert { envW with resultsReadFails := true } dbW 1 10 42).1.results =
      some [] ∧
    ¬ (voteGuardAndInsert { envW with resultsReadFails := true } dbW 1 10 42).1.results =
      some (pollTallies
        (voteGuardAndInsert { envW with resultsReadFails := true } dbW 1 10 42).2.2 1) := by
  exact ⟨by decide, by decide, by decide⟩

/-- C5 (amended): whenever the vote insert succeeds the response has status
201 and contains the created vote row (id, poll id, option id, user id,
creation timestamp); it additionally contains the refreshed per-option
tallies when the post-insert results read succeeds, and an empty results
list in their place when that read fails. -/
theorem vote_success_response (env : Env) (db : DB) (p o u : Nat) :
    ∀ (poll : Poll) (opt : PollOption),
      findPoll db p = some poll → poll.is_active = true →
      findOption db o p = some opt → hasVote db p u = false →
      env.insertOverride = none →
      (voteGuardAndInsert env db p o u).1.status = 201 ∧
      (voteGuardAndInsert env db p o u).1.vote =
        some { id := env.freshVoteId, poll_id := p, option_id := o,
               user_id := u, created_at := env.now } ∧
      (env.resultsReadFails = false →
        (voteGuardAndInsert env db p o u).1.results =
          some (pollTallies (voteGuardAndInsert env db p o u).2.2 p)) ∧
      (env.resultsReadFails = true →
        (voteGuardAndInsert env db p o u).1.results = some []) := by
  intro poll opt hp ha ho hv hi
  have hins : tryInsertVote db
      { id := env.freshVoteId, poll_id := p, option_id := o,
        user_id := u, created_at := env.now } =
      .ok ({ id := env.freshVoteId, poll_id := p, option_id := o,
             user_id := u, created_at := env.now },
           { db with votes := { id := env.freshVoteId, poll_id := p, option_id := o,
                                user_id := u, created_at := env.now : VoteRow } :: db.votes,
                     options := bumpVotes 1 o db.options }) := by
    unfold tryInsertVote
    simp [hv]
  refine ⟨?_, ?_, ?_, ?_⟩
  · simp [voteGuardAndInsert, hp, ha, ho, hi, hins]
  · simp [voteGuardAndInsert, hp, ha, ho, hi, hins]
  · intro hr; simp [voteGuardAndInsert, hp, ha, ho, hi, hins, hr]
  · intro hr; simp [voteGuardAndInsert, hp, ha, ho, hi, hins, hr]

/-- C5 witness: the concrete successful vote on poll 1, option 10, by user
42 yields 201 with the created row and the refreshed tallies. -/
theorem vote_success_response_witness :
    (voteGuardAndInsert envW dbW 1 10 42).1.status = 201 ∧
    (voteGuardAndInsert envW dbW 1 10 42).1.vote =
      some { id := 100, poll_id := 1, option_id := 10, user_id := 42, created_at := 5 } ∧
    (voteGuardAndInsert envW dbW 1 10 42).1.results =
      some (pollTallies (voteGuardAndInsert envW dbW 1 10 42).2.2 1) := by
  have h := vote_success_response envW dbW 1 10 42 pollW1 optW10
    (by decide) (by decide) (by decide) (by decide) rfl
  exact ⟨h.1, h.2.1, h.2.2.1 rfl⟩

/-- C10: the body-keyed vote endpoint attempts the insert for every
authenticated, well-formed request without any database read before the
write (no poll-existence, poll-active or option-membership check appears in
its trace); concretely, a first vote on the existing-but-inactive poll 1
returns 201 through this endpoint, while the path-keyed endpoint answers the
matching request with 400 "no longer active". -/
theorem body_endpoint_skips_guards :
    (∀ (env : Env) (db : DBB) (pid : Nat) (otext h : String) (uid : Nat),
      removeFirstText h "Bearer " ≠ "" →
      env.verifier (removeFirstText h "Bearer ") = some uid →
      1 ≤ textLen otext → textLen otext ≤ 150 →
      (votePostBody env db (some (pid, otext)) (some h)).2.1.any Event.isVoteWrite = true ∧
      (votePostBody env db (some (pid, otext)) (some h)).2.1.all
        (fun ev => !ev.isRead) = true) ∧
    (votePostBody envW dbBW (some (1, "Yes")) (some "Bearer validtoken123")).1.status = 201 ∧
    (votePostPath envW dbPW 1 (some 10) (some "Bearer validtoken123")).1.status = 400 ∧
    (votePostPath envW dbPW 1 (some 10) (some "Bearer validtoken123")).1.message =
      "Poll is no longer active" := by
  refine ⟨?_, by decide, by decide, by decide⟩
  intro env db pid otext h uid hne hv h1 h2
  have hb : (removeFirstText h "Bearer " == "") = false := by simpa using hne
  cases hi : env.insertOverride with
  | some e =>
    by_cases hd : isDuplicateErrB e = true
    · constructor <;>
        simp [votePostBody, hb, hv, h1, h2, hi, hd, Event.isVoteWrite, Event.isRead]
    · simp only [Bool.not_eq_true] at hd
      constructor <;>
        simp [votePostBody, hb, hv, h1, h2, hi, hd, Event.isVoteWrite, Event.isRead]
  | none =>
    cases ht : tryInsertVoteB db
        { id := env.freshVoteId, poll_id := pid, user_id := uid, option := otext } with
    | error e =>
      by_cases hd : isDuplicateErrB e = true
      · constructor <;>
          simp [votePostBody, hb, hv, h1, h2, hi, ht, hd, Event.isVoteWrite, Event.isRead]
      · simp only [Bool.not_eq_true] at hd
        constructor <;>
          simp [votePostBody, hb, hv, h1, h2, hi, ht, hd, Event.isVoteWrite, Event.isRead]
    | ok pr =>
      constructor <;>
        simp [votePostBody, hb, hv, h1, h2, hi, ht, Event.isVoteWrite, Event.isRead]

/-- C10 witness: the general no-read-before-write statement at the concrete
authenticated request voting "Yes" on poll 1. -/
theorem body_endpoint_skips_guards_witness :
    (votePostBody envW dbBW (some (1, "Yes")) (some "Bearer validtoken123")).2.1.any
      Event.isVoteWrite = true ∧
    (votePostBody envW dbBW (some (1, "Yes")) (some "Bearer validtoken123")).2.1.all
      (fun ev => !ev.isRead) = true := by
  exact body_endpoint_skips_guards.1 envW dbBW 1 "Yes" "Bearer validtoken123" 42
    (by decide) (by decide) (by decide) (by decide)

/-- Once a `(p, u)` vote row exists, every further attempt for that pair is
rejected by the constraint: the whole run conflicts. -/
theorem runAttempts_all_conflict (p u : Nat) :
    ∀ (attempts : List VoteRow) (db : DB),
      (∀ a ∈ attempts, a.poll_id = p ∧ a.user_id = u) →
      hasVote db p u = true →
      (runAttempts db attempts).1 =
        List.replicate attempts.length VoteOutcome.conflict := by
  intro attempts
  induction attempts with
  | nil => intro db _ _; rfl
  | cons a rest ih =>
    intro db hall hv
    have ha := hall a (List.mem_cons_self a rest)
    have herr : tryInsertVote db a =
        .error { code := "23505",
                 message := "duplicate key value violates unique constraint unique_user_poll_vote" } := by
      unfold tryInsertVote
      rw [ha.1, ha.2, hv]
      simp
    simp only [runAttempts, herr, List.replicate]
    have hrest := ih db (fun b hb => hall b (List.mem_cons_of_mem a hb)) hv
    simp [outcomeOf, hrest]

/-- C1: for every `(poll, voter)` pair and every nonempty batch of
concurrent attempts for that pair, running the batch in ANY serialization
order from a state with no prior vote yields exactly one success and
conflicts for all the rest; moreover the decision to attempt the insert
never consults the vote relation (no check-then-insert: the guard outcome is
invariant under arbitrary changes of the `votes` table), and the insert
itself succeeds exactly when the constraint key is absent. -/
theorem vote_uniqueness_race_free :
    (∀ (db : DB) (p u : Nat) (attempts : List VoteRow),
      attempts ≠ [] →
      (∀ a ∈ attempts, a.poll_id = p ∧ a.user_id = u) →
      hasVote db p u = false →
      (runAttempts db attempts).1.count VoteOutcome.success = 1 ∧
      (runAttempts db attempts).1.count VoteOutcome.conflict = attempts.length - 1) ∧
    (∀ (env : Env) (db : DB) (p o u : Nat) (votes2 : List VoteRow),
      insertAttempted (voteGuardAndInsert env { db with votes := votes2 } p o u) =
        insertAttempted (voteGuardAndInsert env db p o u)) ∧
    (∀ (db : DB) (v : VoteRow),
      insOk (tryInsertVote db v) = !hasVote db v.poll_id v.user_id) := by
  refine ⟨?_, ?_, ?_⟩
  · intro db p u attempts hne hall hv
    cases attempts with
    | nil => exact absurd rfl hne
    | cons a rest =>
      have ha := hall a (List.mem_cons_self a rest)
      have hok : tryInsertVote db a =
          .ok (a, { db with votes := a :: db.votes,
                            options := bumpVotes 1 a.option_id db.options }) := by
        unfold tryInsertVote
        rw [ha.1, ha.2, hv]
        simp
      have hv1 : hasVote { db with votes := a :: db.votes,
                                   options := bumpVotes 1 a.option_id db.options } p u
          = true := by
        simp [hasVote, ha.1, ha.2]
      have hrest := runAttempts_all_conflict p u rest
        { db with votes := a :: db.votes, options := bumpVotes 1 a.option_id db.options }
        (fun b hb => hall b (List.mem_cons_of_mem a hb)) hv1
      simp only [runAttempts, hok, hrest]
      constructor
      · simp [List.count_cons, List.count_replicate]
      · simp [List.count_cons, List.count_replicate]
  · intro env db p o u votes2
    rw [insertAttempted_guard_eq, insertAttempted_guard_eq]
    rfl
  · intro db v
    unfold tryInsertVote insOk
    cases hv : hasVote db v.poll_id v.user_id <;> simp [hv]

/-- C1 witness: two concurrent attempts by user 42 on poll 1 (different
options) from the empty vote relation: one success, one conflict; and the
insert against the fixture database is reported as succeeding since no vote
exists. -/
theorem vote_uniqueness_race_free_witness :
    ((runAttempts dbW [attA, attB]).1.count VoteOutcome.success = 1 ∧
      (runAttempts dbW [attA, attB]).1.count VoteOutcome.conflict = 1) ∧
    insOk (tryInsertVote dbW attA) = !hasVote dbW 1 42 := by
  refine ⟨vote_uniqueness_race_free.1 dbW 1 42 [attA, attB]
    (by decide) (by decide) (by decide), ?_⟩
  exact vote_uniqueness_race_free.2.2 dbW attA

/-- The guard-and-insert stage returns the same response and leaves the same
vote relation whether the audit write fails or succeeds. -/
theorem voteGuard_audit_toggle (env : Env) (b : Bool) (db : DB) (p o u : Nat) :
    (voteGuardAndInsert { env with auditFails := b } db p o u).1 =
      (voteGuardAndInsert { env with auditFails := false } db p o u).1 ∧
    (voteGuardAndInsert { env with auditFails := b } db p o u).2.2.votes =
      (voteGuardAndInsert { env with auditFails := false } db p o u).2.2.votes := by
  cases hp : findPoll db p with
  | none => simp [voteGuardAndInsert, hp]
  | some poll =>
    cases ha : poll.is_active with
    | false => simp [voteGuardAndInsert, hp, ha]
    | true =>
      cases ho : findOption db o p with
      | none => simp [voteGuardAndInsert, hp, ha, ho]
      | some opt =>
        simp only [voteGuardAndInsert, hp, ha, ho, Bool.not_true, Bool.false_eq_true,
          if_false]
        cases hi : env.insertOverride with
        | some e => simp [hi]
        | none =>
          simp only [hi]
          cases ht : tryInsertVote db
              { id := env.freshVoteId, poll_id := p, option_id := o,
                user_id := u, created_at := env.now } with
          | error e => simp
          | ok pr =>
            simp only []
            refine ⟨?_, ?_⟩
            · simp [pollTallies_applyAudit]
            · simp [applyAudit_votes]

/-- C9: for every state-changing operation (vote submission through either
endpoint, poll creation), a failing audit write never changes the response
(status and body identical to the successful-audit run) and never rolls back
the primary write: the vote relation, resp. the polls and options relations,
are the same in both runs. -/
theorem audit_failure_never_propagates :
    (∀ (env : Env) (db : DB) (p : Nat) (b : Option Nat) (h : Option String),
      (votePostPath { env with auditFails := true } db p b h).1 =
        (votePostPath { env with auditFails := false } db p b h).1 ∧
      (votePostPath { env with auditFails := true } db p b h).2.2.votes =
        (votePostPath { env with auditFails := false } db p b h).2.2.votes) ∧
    (∀ (env : Env) (db : DBB) (body : Option (Nat × String)) (h : Option String),
      (votePostBody { env with auditFails := true } db body h).1 =
        (votePostBody { env with auditFails := false } db body h).1 ∧
      (votePostBody { env with auditFails := true } db body h).2.2.votes =
        (votePostBody { env with auditFails := false } db body h).2.2.votes) ∧
    (∀ (env : Env) (db : DB) (cl : Option Nat) (bl : Nat) (body : Option RawPoll)
        (h : Option String),
      (pollsPost { env with auditFails := true } db cl bl body h).1 =
        (pollsPost { env with auditFails := false } db cl bl body h).1 ∧
      (pollsPost { env with auditFails := true } db cl bl body h).2.2.polls =
        (pollsPost { env with auditFails := false } db cl bl body h).2.2.polls ∧
      (pollsPost { env with auditFails := true } db cl bl body h).2.2.options =
        (pollsPost { env with auditFails := false } db cl bl body h).2.2.options) := by
  refine ⟨?_, ?_, ?_⟩
  · intro env db p b h
    cases b with
    | none => exact ⟨rfl, rfl⟩
    | some o =>
      cases h with
      | none => exact ⟨rfl, rfl⟩
      | some hh =>
        simp only [votePostPath]
        by_cases htok : (removeFirstText hh "Bearer " == "") = true
        · simp [htok]
        · simp only [htok, Bool.false_eq_true, if_false]
          cases hv : env.verifier (removeFirstText hh "Bearer ") with
          | none => simp [hv]
          | some uid =>
            simp only [hv]
            exact ⟨(voteGuard_audit_toggle env true db p o uid).1,
              (voteGuard_audit_toggle env true db p o uid).2⟩
  · intro env db body h
    cases h with
    | none => exact ⟨rfl, rfl⟩
    | some hh =>
      simp only [votePostBody]
      by_cases htok : (removeFirstText hh "Bearer " == "") = true
      · simp [htok]
      · simp only [htok, Bool.false_eq_true, if_false]
        cases hv : env.verifier (removeFirstText hh "Bearer ") with
        | none => simp [hv]
        | some uid =>
          simp only [hv]
          cases body with
          | none => simp
          | some pr =>
            obtain ⟨pid, otext⟩ := pr
            by_cases hlen : (decide (1 ≤ textLen otext) && decide (textLen otext ≤ 150))
                = true
            · simp only [hlen, Bool.not_true, Bool.false_eq_true, if_false]
              cases hi : env.insertOverride with
              | some e => simp [hi]
              | none =>
                simp only [hi]
                cases ht : tryInsertVoteB db
                    { id := env.freshVoteId, poll_id := pid,
                      user_id := uid, option := otext } with
                | error e => simp
                | ok pr2 => simp
            · simp only [Bool.not_eq_true] at hlen
              simp [hlen]
  · intro env db cl bl body h
    simp only [pollsPost]
    by_cases hcl : (match cl with | some n => decide (10000 < n) | none => false) = true
    · simp [hcl]
    · simp only [Bool.not_eq_true] at hcl
      simp only [hcl, Bool.false_eq_true, if_false]
      cases body with
      | none => simp
      | some b =>
        by_cases hbl : 10000 < bl
        · simp [hbl]
        · simp only [hbl, if_false]
          cases hval : validateAndSanitizePoll b with
          | none => simp
          | some s =>
            simp only []
            cases h with
            | none => simp
            | some hh =>
              by_cases hhd : startsWithText hh "Bearer " = true
              · simp only [hhd, Bool.not_true, Bool.false_eq_true, if_false,
                  Option.getD_some]
                by_cases htok : ((trimText (removeFirstText hh "Bearer ") == "")
                    || decide (textLen (trimText (removeFirstText hh "Bearer ")) < 10))
                    = true
                · simp [htok]
                · simp only [htok, Bool.false_eq_true, if_false]
                  cases hv : env.verifier (trimText (removeFirstText hh "Bearer ")) with
                  | none => simp [hv]
                  | some uid =>
                    simp only [hv]
                    by_cases hpf : env.pollInsertFails = true
                    · simp [hpf]
                    · simp only [Bool.not_eq_true] at hpf
                      simp only [hpf, Bool.false_eq_true, if_false]
                      by_cases hof : env.optionsInsertFails = true
                      · simp [hof]
                      · simp only [Bool.not_eq_true] at hof
                        simp only [hof, Bool.false_eq_true, if_false]
                        refine ⟨trivial, ?_, ?_⟩
                        · simp only [applyAudit_polls]
                        · simp only [applyAudit_options]
                          rfl
              · simp only [Bool.not_eq_true] at hhd
                simp [hhd]

/-- Unfolded form of counter consistency. -/
theorem countersConsistent_iff (db : DB) :
    countersConsistentB db = true ↔
      ∀ o ∈ db.options, o.votes = (voteCount db.votes o.id : Int) := by
  simp [countersConsistentB, List.all_eq_true]

/-- Counting referencing votes through a cons. -/
theorem voteCount_cons (v : VoteRow) (vs : List VoteRow) (oid : Nat) :
    voteCount (v :: vs) oid = voteCount vs oid + (if v.option_id = oid then 1 else 0) := by
  by_cases h : v.option_id = oid
  · simp [voteCount, List.filter_cons, h]
  · simp [voteCount, List.filter_cons, h]

/-- A successful constraint-checked insert preserves counter consistency:
the fired increment trigger bumps exactly the counter whose reference count
grew by one. -/
theorem tryInsert_preserves (db : DB) (v r : VoteRow) (db1 : DB)
    (h : tryInsertVote db v = .ok (r, db1))
    (hc : countersConsistentB db = true) : countersConsistentB db1 = true := by
  unfold tryInsertVote at h
  by_cases hv : hasVote db v.poll_id v.user_id = true
  · simp [hv] at h
  · simp only [Bool.not_eq_true] at hv
    simp only [hv, Bool.false_eq_true, if_false, Except.ok.injEq, Prod.mk.injEq] at h
    obtain ⟨-, hdb⟩ := h
    subst hdb
    rw [countersConsistent_iff] at hc ⊢
    intro o ho
    simp only [bumpVotes, List.mem_map] at ho
    obtain ⟨o0, ho0, rfl⟩ := ho
    have hbase := hc o0 ho0
    by_cases hid : o0.id = v.option_id
    · rw [hid] at hbase
      simp only [hid, beq_self_eq_true, if_true]
      rw [voteCount_cons, if_pos rfl]
      push_cast
      omega
    · rw [if_neg (by simpa using hid)]
      rw [voteCount_cons, if_neg (fun hh => hid hh.symm)]
      simpa using hbase

/-- Removing the first row matched by `q` drops the `p2`-count by one exactly
when that row satisfies `p2`. -/
theorem filter_length_eraseP (q p2 : VoteRow → Bool) :
    ∀ (l : List VoteRow) (v : VoteRow), l.find? q = some v →
      (l.filter p2).length =
        ((l.eraseP q).filter p2).length + (if p2 v = true then 1 else 0) := by
  intro l
  induction l with
  | nil => intro v h; cases h
  | cons a l ih =>
    intro v h
    by_cases hq : q a = true
    · rw [List.find?_cons] at h
      simp only [hq] at h
      have hav : a = v := by simpa using h
      subst hav
      rw [List.eraseP_cons_of_pos hq]
      by_cases hp : p2 a = true
      · simp [List.filter_cons, hp]
      · simp [List.filter_cons, hp]
    · have hq' : q a = false := by simpa using hq
      rw [List.find?_cons] at h
      simp only [hq'] at h
      rw [List.eraseP_cons_of_neg (by simp [hq'])]
      by_cases hp : p2 a = true
      · simp only [List.filter_cons, hp, if_true, List.length_cons]
        rw [ih v h]
        omega
      · simp only [List.filter_cons, hp, Bool.false_eq_true, if_false]
        exact ih v h

/-- Every storage operation (insert with increment trigger, delete with
decrement trigger) preserves counter consistency. -/
theorem applyOp_preserves (db : DB) (op : StoreOp)
    (hc : countersConsistentB db = true) :
    countersConsistentB (applyOp db op) = true := by
  cases op with
  | insert v =>
    cases ht : tryInsertVote db v with
    | ok pr =>
      obtain ⟨r, db1⟩ := pr
      have hred : applyOp db (.insert v) = db1 := by simp [applyOp, ht]
      rw [hred]
      exact tryInsert_preserves db v r db1 ht hc
    | error e =>
      have hred : applyOp db (.insert v) = db := by simp [applyOp, ht]
      rw [hred]
      exact hc
  | delete vid =>
    cases hf : db.votes.find? (fun v => v.id == vid) with
    | none =>
      have hred : applyOp db (.delete vid) = db := by simp [applyOp, hf]
      rw [hred]
      exact hc
    | some v =>
      have hred : applyOp db (.delete vid) =
          { db with votes := db.votes.eraseP (fun w => w.id == vid),
                    options := bumpVotes (-1) v.option_id db.options } := by
        simp [applyOp, hf]
      rw [hred]
      rw [countersConsistent_iff] at hc ⊢
      intro o ho
      simp only [bumpVotes, List.mem_map] at ho
      obtain ⟨o0, ho0, rfl⟩ := ho
      have hbase := hc o0 ho0
      have hcnt := filter_length_eraseP (fun w => w.id == vid)
        (fun w => w.option_id == o0.id) db.votes v hf
      by_cases hid : o0.id = v.option_id
      · have hpv : (v.option_id == o0.id) = true := by simp [hid]
        have hcnt2 : voteCount db.votes o0.id =
            voteCount (db.votes.eraseP (fun w => w.id == vid)) o0.id + 1 := by
          simpa [voteCount, hpv] using hcnt
        simp only [hid, beq_self_eq_true, if_true]
        rw [← hid]
        push_cast at hbase ⊢
        omega
      · have hpv : (v.option_id == o0.id) = false := by
          simpa using fun hh => hid hh.symm
        have hcnt2 : voteCount db.votes o0.id =
            voteCount (db.votes.eraseP (fun w => w.id == vid)) o0.id := by
          simpa [voteCount, hpv] using hcnt
        rw [if_neg (by simpa using hid)]
        show o0.votes = ((voteCount (db.votes.eraseP (fun w => w.id == vid)) o0.id : Nat) : Int)
        rw [hbase, hcnt2]

/-- Consistency is preserved along any operation sequence. -/
theorem applyOps_preserves :
    ∀ (ops : List StoreOp) (db : DB), countersConsistentB db = true →
      countersConsistentB (applyOps db ops) = true := by
  intro ops
  induction ops with
  | nil => intro db hc; exact hc
  | cons op ops ih =>
    intro db hc
    exact ih (applyOp db op) (applyOp_preserves db op hc)

/-- The guard-and-insert stage preserves counter consistency. -/
theorem voteGuard_preserves (env : Env) (db : DB) (p o u : Nat)
    (hc : countersConsistentB db = true) :
    countersConsistentB (voteGuardAndInsert env db p o u).2.2 = true := by
  cases hp : findPoll db p with
  | none => simpa [voteGuardAndInsert, hp] using hc
  | some poll =>
    cases ha : poll.is_active with
    | false => simpa [voteGuardAndInsert, hp, ha] using hc
    | true =>
      cases ho : findOption db o p with
      | none => simpa [voteGuardAndInsert, hp, ha, ho] using hc
      | some opt =>
        simp only [voteGuardAndInsert, hp, ha, ho, Bool.not_true, Bool.false_eq_true,
          if_false]
        cases hi : env.insertOverride with
        | some e =>
          simp only [hi]
          by_cases h1 : (e.code == "23505") = true
          · simpa [h1] using hc
          · by_cases h2 : (e.code == "23503") = true
            · simpa [h1, h2] using hc
            · simpa [h1, h2] using hc
        | none =>
          simp only [hi]
          cases ht : tryInsertVote db
              { id := env.freshVoteId, poll_id := p, option_id := o,
                user_id := u, created_at := env.now } with
          | error e =>
            by_cases h1 : (e.code == "23505") = true
            · simpa [h1] using hc
            · by_cases h2 : (e.code == "23503") = true
              · simpa [h1, h2] using hc
              · simpa [h1, h2] using hc
          | ok pr =>
            obtain ⟨r, db1⟩ := pr
            simp only []
            rw [countersConsistentB_applyAudit]
            exact tryInsert_preserves db _ r db1 ht hc

/-- Rows created for a new poll carry a zero counter and a fresh id. -/
theorem mem_newOptionRows (env : Env) (pid : Nat) (opts : List String) (row : PollOption)
    (hm : row ∈ newOptionRows env pid opts) :
    row.votes = 0 ∧ ∃ i, row.id = env.freshOptionId i := by
  unfold newOptionRows at hm
  simp only [List.mem_map] at hm
  obtain ⟨pr, hpr, rfl⟩ := hm
  exact ⟨rfl, pr.1, rfl⟩

/-- An option id referenced by no vote row has count zero. -/
theorem voteCount_fresh (votes : List VoteRow) (oid : Nat)
    (h : ∀ v ∈ votes, v.option_id ≠ oid) : voteCount votes oid = 0 := by
  unfold voteCount
  rw [List.length_eq_zero, List.filter_eq_nil_iff]
  intro a ha
  simpa using h a ha

/-- C2: after any sequence of vote insertions and deletions every option
counter equals the number of vote rows referencing that option, and in
particular never goes below zero; the application routes never touch the
counters themselves — the path-keyed vote handler and the poll-creation
handler (whose new options start at zero, their fresh ids referenced by no
existing vote) both preserve the invariant, the counter moving only through
the insert and delete triggers of the storage layer. -/
theorem counter_consistency :
    (∀ (db : DB) (ops : List StoreOp),
      countersConsistentB db = true → countersConsistentB (applyOps db ops) = true) ∧
    (∀ (db : DB), countersConsistentB db = true → ∀ o ∈ db.options, 0 ≤ o.votes) ∧
    (∀ (env : Env) (db : DB) (p : Nat) (b : Option Nat) (h : Option String),
      countersConsistentB db = true →
      countersConsistentB (votePostPath env db p b h).2.2 = true) ∧
    (∀ (env : Env) (db : DB) (cl : Option Nat) (bl : Nat) (body : Option RawPoll)
        (h : Option String),
      countersConsistentB db = true →
      (∀ v ∈ db.votes, ∀ i, v.option_id ≠ env.freshOptionId i) →
      countersConsistentB (pollsPost env db cl bl body h).2.2 = true) := by
  refine ⟨?_, ?_, ?_, ?_⟩
  · intro db ops hc
    exact applyOps_preserves ops db hc
  · intro db hc o ho
    rw [countersConsistent_iff] at hc
    rw [hc o ho]
    exact Int.natCast_nonneg _
  · intro env db p b h hc
    cases b with
    | none => simpa [votePostPath] using hc
    | some o =>
      cases h with
      | none => simpa [votePostPath] using hc
      | some hh =>
        simp only [votePostPath]
        by_cases htok : (removeFirstText hh "Bearer " == "") = true
        · simpa [htok] using hc
        · simp only [htok, Bool.false_eq_true, if_false]
          cases hv : env.verifier (removeFirstText hh "Bearer ") with
          | none => simpa [hv] using hc
          | some uid =>
            simp only [hv]
            exact voteGuard_preserves env db p o uid hc
  · intro env db cl bl body h hc hfresh
    simp only [pollsPost]
    by_cases hcl : (match cl with | some n => decide (10000 < n) | none => false) = true
    · simpa [hcl] using hc
    · simp only [Bool.not_eq_true] at hcl
      simp only [hcl, Bool.false_eq_true, if_false]
      cases body with
      | none => exact hc
      | some b =>
        by_cases hbl : 10000 < bl
        · simpa [hbl] using hc
        · simp only [hbl, if_false]
          cases hval : validateAndSanitizePoll b with
          | none => exact hc
          | some s =>
            simp only []
            cases h with
            | none => exact hc
            | some hh =>
              by_cases hhd : startsWithText hh "Bearer " = true
              · simp only [hhd, Bool.not_true, Bool.false_eq_true, if_false,
                  Option.getD_some]
                by_cases htok : ((trimText (removeFirstText hh "Bearer ") == "")
                    || decide (textLen (trimText (removeFirstText hh "Bearer ")) < 10))
                    = true
                · simpa [htok] using hc
                · simp only [htok, Bool.false_eq_true, if_false]
                  cases hv : env.verifier (trimText (removeFirstText hh "Bearer ")) with
                  | none => simpa [hv] using hc
                  | some uid =>
                    simp only [hv]
                    by_cases hpf : env.pollInsertFails = true
                    · simpa [hpf] using hc
                    · simp only [Bool.not_eq_true] at hpf
                      simp only [hpf, Bool.false_eq_true, if_false]
                      by_cases hof : env.optionsInsertFails = true
                      · simpa [hof] using hc
                      · simp only [Bool.not_eq_true] at hof
                        simp only [hof, Bool.false_eq_true, if_false]
                        rw [countersConsistentB_applyAudit]
                        rw [countersConsistent_iff] at hc ⊢
                        intro o ho
                        rcases List.mem_append.mp ho with hold | hnew
                        · exact hc o hold
                        · obtain ⟨hz, i, hfid⟩ :=
                            mem_newOptionRows env env.freshPollId s.options o hnew
                          rw [hz, hfid]
                          rw [voteCount_fresh db.votes (env.freshOptionId i)
                            (fun v hv2 => hfresh v hv2 i)]
                          rfl
              · simp only [Bool.not_eq_true] at hhd
                simpa [hhd] using hc

/-- C2 witness: the invariant holds on the fixture database, is kept by an
insert followed by a delete of that same vote, is kept by a full
path-endpoint vote request, and every counter stays non-negative. -/
theorem counter_consistency_witness :
    countersConsistentB (applyOps dbW [StoreOp.insert attA, StoreOp.delete 100]) = true ∧
    countersConsistentB
      (votePostPath envW dbW 1 (some 10) (some "Bearer validtoken123")).2.2 = true ∧
    (∀ o ∈ dbW.options, 0 ≤ o.votes) := by
  refine ⟨counter_consistency.1 dbW [StoreOp.insert attA, StoreOp.delete 100] (by decide),
    counter_consistency.2.2.1 envW dbW 1 (some 10) (some "Bearer validtoken123") (by decide),
    counter_consistency.2.1 dbW (by decide)⟩

end AlxPolly
